import Mathlib

/-!
Verification of the mnexec execution utility (mnexec.c shared main,
mnexec_linux.c Linux variant, mnexec.h option strings).

The program is embedded shallowly: every kernel interaction is recorded as
an `Event` in a trace, and the outcome of each fallible system call is
supplied by an oracle environment `Env` (one field per call site family).
`runMain` models `main` of mnexec.c: getopt-driven flag processing in
left-to-right order, then either exec of the remaining command line or the
usage path.
-/

namespace Mnexec

/-- Result of `fork()` as seen by the caller: -1 (failure), 0 (child),
or a positive pid (parent). -/
inductive ForkRes where
  | fail
  | child
  | parent
deriving DecidableEq, Repr

/-- Observable actions of the program.  `stderr s` records a diagnostic:
for `perror(msg)` we record the `msg` prefix (the errno text is
environment-dependent); for `fprintf(stderr, ...)` we record the full
formatted string.  `usage name` records the usage text printed for
program name `name`.  `write` and `flush` are stdout actions. -/
inductive Event where
  | close (fd : Nat)
  | write (s : String)
  | flush
  | setsidCall
  | forkCall
  | unshareCall
  | remountCall
  | mountSysfsCall
  | openFile (path : String)
  | setnsCall
  | chrootCall (path : String)
  | getcwdCall
  | chdirCall (path : String)
  | cgroupWrite (path : String) (pid : Nat)
  | schedSet (prio : Int)
  | stderr (s : String)
  | usage (name : String)
deriving DecidableEq, Repr

/-- Final outcome of one invocation: process exit with a status, or
arrival at `execvp` with the given command and trailing arguments. -/
inductive MainResult where
  | exited (code : Nat)
  | execCmd (cmd : String) (rest : List String)
deriving DecidableEq, Repr

/-- Oracle environment: the identity of the calling process and the
outcome of each fallible system call the program may perform. -/
structure Env where
  pid : Nat
  dtablesize : Nat
  isPgrpLeader : Bool
  fork : ForkRes
  unshare_ok : Bool
  remount_ok : Bool
  mountSysfs_ok : Bool
  /-- `try_contain` in mnexec_linux.c falls off the end of the function on
  the all-success path, so its return value there is indeterminate; the
  environment supplies that value. -/
  contain_ret : Int
  openNetNs : Int → Bool
  setnsNet_ok : Bool
  openMntNs : Int → Bool
  setnsMnt_ok : Bool
  chroot_ok : Bool
  cwd : String
  chdir_ok : Bool
  cgroupOpen : String → String → Bool
  schedrt_ok : Bool
  exec_ok : Bool

/-- The version string default from mnexec.h. -/
def VERSION : String := "(devel)"

/-- C `isspace` in the C locale, as used by `atoi`. -/
def isSpaceC (c : Char) : Bool :=
  c == ' ' || c == '\t' || c == '\n' || c.toNat == 11 || c.toNat == 12 || c == '\r'

/-- Accumulate the leading decimal digits, stopping at the first
non-digit (the conversion step of C `atoi`). -/
def digitsVal : List Char → Nat → Nat
  | c :: t, acc => if c.isDigit then digitsVal t (acc * 10 + (c.toNat - 48)) else acc
  | [], acc => acc

/-- The sign-and-digits step of C `atoi`: an optional minus or plus,
then the longest digit run; 0 when no digits are present. -/
def atoiCore : List Char → Int
  | [] => 0
  | c :: t =>
    if c = '-' then -(digitsVal t 0 : Int)
    else if c = '+' then (digitsVal t 0 : Int)
    else (digitsVal (c :: t) 0 : Int)

/-- C `atoi`: skip leading whitespace, read an optional sign, convert the
longest digit run, and yield 0 when no digits are present.  (Overflow is
undefined behaviour in C and is not modelled; all inputs of interest are
small.) -/
def atoi (s : String) : Int := atoiCore (s.data.dropWhile isSpaceC)

/-- Drop one optional sign character. -/
def afterSign : List Char → List Char
  | c :: t => if c = '-' ∨ c = '+' then t else c :: t
  | [] => []

/-- True when `atoi` finds at least one digit after the optional
whitespace and sign, i.e. when the argument has a numeric lead. -/
def numericLead (s : String) : Bool :=
  match afterSign (s.data.dropWhile isSpaceC) with
  | c :: _ => c.isDigit
  | [] => false

/-- Events of the `-c` loop: `for (fd = getdtablesize(); fd > 2; fd--)
close(fd);`. -/
def closeEvents : Nat → List Event
  | 0 => []
  | 1 => []
  | 2 => []
  | n + 3 => .close (n + 3) :: closeEvents (n + 2)

/-- `validate` in mnexec_linux.c accepts a path iff every character is
alphanumeric or a slash (C-locale `isalnum`). -/
def validOk (s : String) : Bool :=
  s.data.all (fun c => c.isAlphanum || c == '/')

/-- The fixed controller-hierarchy list of `cgroup` in mnexec_linux.c. -/
def groups : List String := ["cpu", "cpuacct", "cpuset"]

/-- The membership-file path built by `snprintf(path, PATH_MAX,
"/sys/fs/cgroup/%s/%s/tasks", grp, gname)`. -/
def cgPath (grp gname : String) : String :=
  "/sys/fs/cgroup/" ++ grp ++ "/" ++ gname ++ "/tasks"

/-- The per-hierarchy loop of `cgroup`: attempt to open each membership
file, write the pid into each one that opens, and count the successes. -/
def cgroupLoop (env : Env) (gname : String) : List String → List Event × Nat
  | [] => ([], 0)
  | g :: t =>
    let q := cgroupLoop env gname t
    if env.cgroupOpen g gname then
      (.openFile (cgPath g gname) :: .cgroupWrite (cgPath g gname) env.pid :: q.1, q.2 + 1)
    else
      (.openFile (cgPath g gname) :: q.1, q.2)

/-- `cgroup(gname)` of mnexec_linux.c: validate the path (exit 1 with an
"invalid path" diagnostic on failure, before any file is opened), then run
the hierarchy loop; exit 1 with a "could not add" diagnostic when no
hierarchy accepted the write. -/
def cgroupRun (env : Env) (gname : String) : List Event × Option MainResult :=
  if validOk gname then
    let q := cgroupLoop env gname groups
    if q.2 = 0 then
      (q.1 ++ [.stderr ("cgroup: could not add to cgroup " ++ gname ++ "\n")],
       some (.exited 1))
    else (q.1, none)
  else
    ([.stderr ("invalid path: " ++ gname ++ "\n")], some (.exited 1))

/-- `try_contain()` of mnexec_linux.c: unshare the network and mount
namespaces, remount / as recursively private, mount a fresh sysfs.  Each
failure returns 1 after a perror; on full success the C function has no
return statement, so the value is the indeterminate `env.contain_ret`. -/
def try_contain (env : Env) : List Event × Int :=
  if ¬env.unshare_ok then ([.unshareCall, .stderr "unshare"], 1)
  else if ¬env.remount_ok then
    ([.unshareCall, .remountCall, .stderr "remount"], 1)
  else if ¬env.mountSysfs_ok then
    ([.unshareCall, .remountCall, .mountSysfsCall, .stderr "mount"], 1)
  else ([.unshareCall, .remountCall, .mountSysfsCall], env.contain_ret)

/-- The final `getcwd` + `chdir` step of the `-a` case: restore the
working directory, fatally (perror of the directory, exit 1) on failure. -/
def finishCwd (env : Env) (e : List Event) : List Event × Option MainResult :=
  if env.chdir_ok then (e ++ [.getcwdCall, .chdirCall env.cwd], none)
  else (e ++ [.getcwdCall, .chdirCall env.cwd, .stderr env.cwd], some (.exited 1))

/-- The `-a` case of main: open and join the target pid's network
namespace (each failure fatal with a perror), then attempt the mount
namespace join (Plan A); if the mnt open or its setns fails, chroot into
the target's root (Plan B), fatal if the chroot fails; finally restore
the working directory. -/
def attach (env : Env) (s : String) : List Event × Option MainResult :=
  let pid := atoi s
  let netp := "/proc/" ++ toString pid ++ "/ns/net"
  let mntp := "/proc/" ++ toString pid ++ "/ns/mnt"
  let rootp := "/proc/" ++ toString pid ++ "/root"
  if ¬env.openNetNs pid then
    ([.openFile netp, .stderr netp], some (.exited 1))
  else if ¬env.setnsNet_ok then
    ([.openFile netp, .setnsCall, .stderr "setns"], some (.exited 1))
  else
    let eMnt : List Event :=
      if env.openMntNs pid then [.openFile mntp, .setnsCall] else [.openFile mntp]
    let ePre : List Event := [.openFile netp, .setnsCall] ++ eMnt
    if env.openMntNs pid ∧ env.setnsMnt_ok then
      finishCwd env ePre
    else
      if env.chroot_ok then finishCwd env (ePre ++ [.chrootCall rootp])
      else (ePre ++ [.chrootCall rootp, .stderr rootp], some (.exited 1))

/-- `try_schedrt(optarg)` of mnexec_linux.c followed by main's check:
`sched_setscheduler(getpid(), SCHED_RR, &sp)` with priority `atoi(optarg)`;
a negative return is fatal after `perror("sched_setscheduler")`. -/
def schedRun (env : Env) (s : String) : List Event × Option MainResult :=
  if env.schedrt_ok then ([.schedSet (atoi s)], none)
  else ([.schedSet (atoi s), .stderr "sched_setscheduler"], some (.exited 1))

/-- One result of the getopt loop: a recognized option (with its argument
when the option takes one), or a character getopt reported with a
question mark (unknown option, or a required argument that is missing). -/
inductive GOut where
  | opt (c : Char) (arg : Option String)
  | unknown (c : Char)
deriving DecidableEq, Repr

/-- Processing of one `case` of the switch in main (mnexec.c).  Every
case either terminates the process (`some` result) or falls through to
the next getopt iteration (`none`), after emitting its events. -/
def stepOpt (env : Env) (argv0 : String) : GOut → List Event × Option MainResult
  | .unknown _ => ([.usage argv0], some (.exited 1))
  | .opt 'c' _ => (closeEvents env.dtablesize, none)
  | .opt 'd' _ =>
    if env.isPgrpLeader then
      match env.fork with
      | .fail => ([.forkCall, .stderr "fork"], some (.exited 1))
      | .parent => ([.forkCall], some (.exited 0))
      | .child => ([.forkCall, .setsidCall], none)
    else ([.setsidCall], none)
  | .opt 'p' _ =>
    ([.write ("\x01" ++ toString env.pid ++ "\n"), .flush], none)
  | .opt 'v' _ => ([.write (VERSION ++ "\n")], some (.exited 0))
  | .opt 'n' _ =>
    let q := try_contain env
    (q.1, if q.2 < 0 then some (.exited 1) else none)
  | .opt 'a' (some s) => attach env s
  | .opt 'g' (some s) => cgroupRun env s
  | .opt 'r' (some s) => schedRun env s
  | .opt 'h' _ => ([.usage argv0], some (.exited 0))
  | .opt _ _ => ([.usage argv0], some (.exited 1))

/-- The getopt-driven flag loop of main: process options left to right,
stopping when one of the cases terminates the process. -/
def runOpts (env : Env) (argv0 : String) : List GOut → List Event × Option MainResult
  | [] => ([], none)
  | o :: t =>
    let s := stepOpt env argv0 o
    match s.2 with
    | some r => (s.1, some r)
    | none =>
      let q := runOpts env argv0 t
      (s.1 ++ q.1, q.2)

/-- Whether option character `c` is declared in the option string (the
part after the leading plus sign); a colon is never an option. -/
def optRecognized : List Char → Char → Bool
  | [], _ => false
  | a :: t, c => (a == c && a != ':') || optRecognized t c

/-- Whether option character `c` is declared with a following colon,
i.e. requires an argument. -/
def optTakesArg : List Char → Char → Bool
  | a :: b :: t, c => if a == c && a != ':' then b == ':' else optTakesArg (b :: t) c
  | _, _ => false

/-- One getopt cluster (the characters of one token after its dash):
unknown characters yield a question-mark result and scanning continues;
an option that takes an argument consumes the rest of the token, or else
the following argv token, or yields a question mark when none is left. -/
def clusterStep (os : List Char) : List Char → List String → List GOut × List String
  | [], rest => ([], rest)
  | c :: t, rest =>
    if optRecognized os c then
      if optTakesArg os c then
        match t with
        | [] =>
          match rest with
          | [] => ([.unknown c], [])
          | a :: r => ([.opt c (some a)], r)
        | _ :: _ => ([.opt c (some (String.mk t))], rest)
      else
        let q := clusterStep os t rest
        (.opt c none :: q.1, q.2)
    else
      let q := clusterStep os t rest
      (.unknown c :: q.1, q.2)

/-- A token getopt treats as an option cluster: a dash followed by at
least one character, other than the bare double dash. -/
def isOptTok (a : String) : Bool :=
  match a.data with
  | '-' :: _ :: _ => a != "--"
  | _ => false

/-- Fuelled getopt loop over the argument tokens.  The option strings of
mnexec.h begin with a plus sign, so scanning stops at the first
non-option token (no permutation); a bare double dash ends option
scanning and is consumed. -/
def getoptGo (os : List Char) : Nat → List String → List GOut × List String
  | 0, argv => ([], argv)
  | _ + 1, [] => ([], [])
  | n + 1, a :: r =>
    if a == "--" then ([], r)
    else if isOptTok a then
      let p := clusterStep os a.data.tail r
      let q := getoptGo os n p.2
      (p.1 ++ q.1, q.2)
    else ([], a :: r)

/-- The whole getopt phase: results of every getopt call, and the
remaining tokens (`argv[optind..]`). -/
def getoptAll (os : List Char) (argv : List String) : List GOut × List String :=
  getoptGo os argv.length argv

/-- The option characters of the capability-rich (Linux) option string
`"+cdnpa:g:r:vh"` of mnexec.h, leading plus stripped. -/
def linuxOS : List Char := "cdnpa:g:r:vh".data

/-- The option characters of the capability-poor option string
`"+cdpvh"` of mnexec.h, leading plus stripped. -/
def bsdOS : List Char := "cdpvh".data

/-- `main` of mnexec.c: run the getopt loop; if it completed without an
exit, exec the remaining command line when one is present (perror and
exit 1 when the exec fails), and otherwise print usage and return 0. -/
def runMain (os : List Char) (env : Env) (argv0 : String) (args : List String) :
    List Event × MainResult :=
  let g := getoptAll os args
  let p := runOpts env argv0 g.1
  match p.2 with
  | some r => (p.1, r)
  | none =>
    match g.2 with
    | cmd :: restArgs =>
      if env.exec_ok then (p.1, .execCmd cmd restArgs)
      else (p.1 ++ [.stderr cmd], .exited 1)
    | [] => (p.1 ++ [.usage argv0], .exited 0)

/-- A concrete all-success environment used for witnesses. -/
def env0 : Env where
  pid := 42
  dtablesize := 5
  isPgrpLeader := true
  fork := .child
  unshare_ok := true
  remount_ok := true
  mountSysfs_ok := true
  contain_ret := 0
  openNetNs := fun _ => true
  setnsNet_ok := true
  openMntNs := fun _ => true
  setnsMnt_ok := true
  chroot_ok := true
  cwd := "/home/mininet"
  chdir_ok := true
  cgroupOpen := fun _ _ => true
  schedrt_ok := true
  exec_ok := true

/-- The paths of the open attempts in a trace, in order. -/
def openPaths (es : List Event) : List String :=
  es.filterMap (fun e => match e with | .openFile p => some p | _ => none)

/-- The membership writes in a trace, in order. -/
def writeRecords (es : List Event) : List (String × Nat) :=
  es.filterMap (fun e => match e with | .cgroupWrite p q => some (p, q) | _ => none)

end Mnexec

namespace Mnexec

/-- Environment in which `unshare` fails (e.g. the caller lacks
CAP_SYS_ADMIN). -/
def envUnshareFail : Env := { env0 with unshare_ok := false }

/-- Environment in which the calling process is not its own
process-group leader. -/
def envNoLead : Env := { env0 with isPgrpLeader := false }

/-- Environment in which opening any /proc pid namespace file fails
(e.g. the pid does not exist). -/
def envNoNetNs : Env := { env0 with openNetNs := fun _ => false }

/-- Processing a list of options that completes without terminating the
process composes with any continuation: the events concatenate and the
outcome is that of the continuation. -/
theorem runOpts_append (env : Env) (argv0 : String) (xs ys : List GOut)
    (h : (runOpts env argv0 xs).2 = none) :
    runOpts env argv0 (xs ++ ys) =
      ((runOpts env argv0 xs).1 ++ (runOpts env argv0 ys).1, (runOpts env argv0 ys).2) := by
  induction xs with
  | nil => simp [runOpts]
  | cons o t ih =>
    cases hs : (stepOpt env argv0 o).2 with
    | some r => simp [runOpts, hs] at h
    | none =>
      have h2 : (runOpts env argv0 t).2 = none := by
        simpa [runOpts, hs] using h
      simp [runOpts, hs, ih h2, List.append_assoc]

/-- Claim C1 (code bug): on the Linux variant, a failure inside
try_contain is NOT fatal.  try_contain returns 1 on failure, but main
tests `try_contain() < 0`, so when unshare fails the program prints the
diagnostic, keeps going, and still executes the target command without
any isolation — contradicting the specified fail-fatal contract. -/
theorem claim1_code_bug_eval :
    runMain linuxOS envUnshareFail "mnexec" ["-n", "true"] =
      ([Event.unshareCall, Event.stderr "unshare"], MainResult.execCmd "true" []) ∧
    (try_contain envUnshareFail).2 = 1 := by
  exact ⟨rfl, rfl⟩

/-- Claim C2 (counterexample): with no tokens at all, the program prints
usage but exits with status 0, not with a non-zero status as claimed. -/
theorem claim2_counterexample :
    runMain linuxOS env0 "mnexec" [] = ([Event.usage "mnexec"], MainResult.exited 0) ∧
    ∀ n : Nat, (runMain linuxOS env0 "mnexec" []).2 = MainResult.exited n → n = 0 := by
  refine ⟨rfl, ?_⟩
  intro n h
  have hbase : (runMain linuxOS env0 "mnexec" []).2 = MainResult.exited 0 := rfl
  rw [hbase] at h
  injection h with h1
  exact h1.symm

/-- Claim C2 (amended): when no command-line tokens remain after flag
parsing and the flag loop completed without an early exit, the program
prints usage and exits with status 0, without reaching the exec step. -/
theorem claim2_amended (os : List Char) (env : Env) (argv0 : String) (args : List String)
    (hrest : (getoptAll os args).2 = [])
    (hdone : (runOpts env argv0 (getoptAll os args).1).2 = none) :
    runMain os env argv0 args =
      ((runOpts env argv0 (getoptAll os args).1).1 ++ [Event.usage argv0],
        MainResult.exited 0) := by
  simp only [runMain, hdone, hrest]

/-- Claim C2 witness: the amended statement at the concrete invocation
`mnexec -c` (flags but no command). -/
theorem claim2_witness :
    runMain linuxOS env0 "mnexec" ["-c"] =
      ((runOpts env0 "mnexec" (getoptAll linuxOS ["-c"]).1).1 ++ [Event.usage "mnexec"],
        MainResult.exited 0) :=
  claim2_amended linuxOS env0 "mnexec" ["-c"] (by decide) (by decide)

/-- Claim C7: processing -p emits exactly the byte 0x01, the decimal pid
and a newline to standard output and then flushes, before any event of a
later flag; the loop then continues with the remaining flags. -/
theorem claim7_pid_line (env : Env) (argv0 : String) (t : List GOut) :
    runOpts env argv0 (GOut.opt 'p' none :: t) =
      (Event.write ("\x01" ++ toString env.pid ++ "\n") :: Event.flush ::
        (runOpts env argv0 t).1, (runOpts env argv0 t).2) := by
  simp [runOpts, stepOpt]

end Mnexec

namespace Mnexec

/-- Claim C3 property: when the open of /proc/pid/ns/net fails, the -a
case perrors that path and exits 1; its step trace is exactly the one
open attempt and the diagnostic, so no chroot and no other open (in
particular not the mnt-namespace one) is attempted; within a whole flag
sequence the program terminates there. -/
def claim3Prop (env : Env) (argv0 : String) (s : String) (pre t : List GOut) : Prop :=
  stepOpt env argv0 (GOut.opt 'a' (some s)) =
    ([Event.openFile ("/proc/" ++ toString (atoi s) ++ "/ns/net"),
      Event.stderr ("/proc/" ++ toString (atoi s) ++ "/ns/net")],
     some (MainResult.exited 1)) ∧
  runOpts env argv0 (pre ++ GOut.opt 'a' (some s) :: t) =
    ((runOpts env argv0 pre).1 ++
      [Event.openFile ("/proc/" ++ toString (atoi s) ++ "/ns/net"),
       Event.stderr ("/proc/" ++ toString (atoi s) ++ "/ns/net")],
     some (MainResult.exited 1)) ∧
  (∀ p, Event.chrootCall p ∉ (stepOpt env argv0 (GOut.opt 'a' (some s))).1) ∧
  (∀ p, Event.openFile p ∈ (stepOpt env argv0 (GOut.opt 'a' (some s))).1 →
    p = "/proc/" ++ toString (atoi s) ++ "/ns/net")

/-- Claim C3: with -a pid, when opening the target's network-namespace
descriptor fails, the program prints a diagnostic naming that path and
exits 1 at that step, before the mount-namespace join or its chroot
fallback and regardless of the remaining flags. -/
theorem claim3_netns_open_failure_fatal (env : Env) (argv0 : String) (s : String)
    (pre t : List GOut)
    (hpre : (runOpts env argv0 pre).2 = none)
    (hopen : env.openNetNs (atoi s) = false) :
    claim3Prop env argv0 s pre t := by
  have hstep : stepOpt env argv0 (GOut.opt 'a' (some s)) =
      ([Event.openFile ("/proc/" ++ toString (atoi s) ++ "/ns/net"),
        Event.stderr ("/proc/" ++ toString (atoi s) ++ "/ns/net")],
       some (MainResult.exited 1)) := by
    simp [stepOpt, attach, hopen]
  have hxt : runOpts env argv0 (GOut.opt 'a' (some s) :: t) =
      ([Event.openFile ("/proc/" ++ toString (atoi s) ++ "/ns/net"),
        Event.stderr ("/proc/" ++ toString (atoi s) ++ "/ns/net")],
       some (MainResult.exited 1)) := by
    simp [runOpts, hstep]
  refine ⟨hstep, ?_, ?_, ?_⟩
  · rw [runOpts_append env argv0 pre (GOut.opt 'a' (some s) :: t) hpre, hxt]
  · intro p
    rw [hstep]
    simp
  · intro p hp
    rw [hstep] at hp
    simpa using hp

/-- Claim C3 witness: the statement at pid argument 12345 in an
environment where no /proc namespace file opens. -/
theorem claim3_witness : claim3Prop envNoNetNs "mnexec" "12345" [] [] :=
  claim3_netns_open_failure_fatal envNoNetNs "mnexec" "12345" [] [] (by decide) (by decide)

/-- Claim C4 property: an invalid group path makes cgroup print the
invalid-path diagnostic and exit 1, with no membership-file open
attempted; the same holds at the -g case of the flag loop. -/
def claim4Prop (env : Env) (argv0 : String) (g : String) (t : List GOut) : Prop :=
  cgroupRun env g =
    ([Event.stderr ("invalid path: " ++ g ++ "\n")], some (MainResult.exited 1)) ∧
  runOpts env argv0 (GOut.opt 'g' (some g) :: t) =
    ([Event.stderr ("invalid path: " ++ g ++ "\n")], some (MainResult.exited 1)) ∧
  (∀ p, Event.openFile p ∉ (cgroupRun env g).1)

/-- Claim C4: every -g argument containing a character outside
[A-Za-z0-9/] is rejected by validate: the invalid-path diagnostic is
printed and the program exits with status 1 before any cgroup membership
file is opened. -/
theorem claim4_invalid_path_fatal (env : Env) (argv0 : String) (g : String) (t : List GOut)
    (h : ∃ c ∈ g.data, c.isAlphanum = false ∧ c ≠ '/') :
    claim4Prop env argv0 g t := by
  have hv : validOk g = false := by
    rcases h with ⟨c, hc, h1, h2⟩
    simp only [validOk, List.all_eq_false]
    exact ⟨c, hc, by simp [h1, h2]⟩
  have hrun : cgroupRun env g =
      ([Event.stderr ("invalid path: " ++ g ++ "\n")], some (MainResult.exited 1)) := by
    simp [cgroupRun, hv]
  refine ⟨hrun, ?_, ?_⟩
  · simp [runOpts, stepOpt, hrun]
  · intro p
    rw [hrun]
    simp

/-- Claim C4 witness: the statement at the spec's example path
"a;rm -rf". -/
theorem claim4_witness : claim4Prop env0 "mnexec" "a;rm -rf" [] :=
  claim4_invalid_path_fatal env0 "mnexec" "a;rm -rf" []
    ⟨';', by decide, by decide⟩

/-- Claim C5 property: for a valid path, cgroup opens the membership
file of exactly the hierarchies cpu, cpuacct, cpuset in order, writes
the calling pid into each that opened, returns normally iff at least one
opened, and otherwise prints the could-not-add diagnostic naming the
path and exits 1. -/
def claim5Prop (env : Env) (g : String) : Prop :=
  openPaths (cgroupRun env g).1 = groups.map (fun grp => cgPath grp g) ∧
  writeRecords (cgroupRun env g).1 =
    (groups.filter (fun grp => env.cgroupOpen grp g)).map
      (fun grp => (cgPath grp g, env.pid)) ∧
  ((cgroupRun env g).2 = none ↔ groups.any (fun grp => env.cgroupOpen grp g) = true) ∧
  (groups.any (fun grp => env.cgroupOpen grp g) = false →
    cgroupRun env g =
      (groups.map (fun grp => Event.openFile (cgPath grp g)) ++
        [Event.stderr ("cgroup: could not add to cgroup " ++ g ++ "\n")],
       some (MainResult.exited 1)))

/-- Claim C5: join-cgroup on a valid path iterates the fixed hierarchy
list cpu, cpuacct, cpuset, writes the pid into each membership file that
opens, succeeds iff at least one hierarchy accepted, and otherwise fails
with exit 1 and a diagnostic containing the requested path. -/
theorem claim5_cgroup_membership (env : Env) (g : String) (hv : validOk g = true) :
    claim5Prop env g := by
  cases h1 : env.cgroupOpen "cpu" g <;> cases h2 : env.cgroupOpen "cpuacct" g <;>
    cases h3 : env.cgroupOpen "cpuset" g <;>
      simp [claim5Prop, cgroupRun, cgroupLoop, groups, hv, h1, h2, h3,
        openPaths, writeRecords]

/-- Claim C5 witness: the statement at the valid path "foo1/bar2" in the
all-success environment. -/
theorem claim5_witness : claim5Prop env0 "foo1/bar2" :=
  claim5_cgroup_membership env0 "foo1/bar2" (by decide)

/-- Claim C6 property (amended form): when the caller is not its own
process-group leader, -d does not fork but still calls setsid and
continues; when it is the leader, it forks once, the parent exits 0, the
child calls setsid and continues; fork failure is fatal with exit 1. -/
def claim6Prop (env : Env) (argv0 : String) (t : List GOut) : Prop :=
  (env.isPgrpLeader = false →
    runOpts env argv0 (GOut.opt 'd' none :: t) =
      (Event.setsidCall :: (runOpts env argv0 t).1, (runOpts env argv0 t).2) ∧
    Event.forkCall ∉ (stepOpt env argv0 (GOut.opt 'd' none)).1) ∧
  (env.isPgrpLeader = true → env.fork = ForkRes.child →
    runOpts env argv0 (GOut.opt 'd' none :: t) =
      (Event.forkCall :: Event.setsidCall :: (runOpts env argv0 t).1,
       (runOpts env argv0 t).2)) ∧
  (env.isPgrpLeader = true → env.fork = ForkRes.parent →
    runOpts env argv0 (GOut.opt 'd' none :: t) =
      ([Event.forkCall], some (MainResult.exited 0))) ∧
  (env.isPgrpLeader = true → env.fork = ForkRes.fail →
    runOpts env argv0 (GOut.opt 'd' none :: t) =
      ([Event.forkCall, Event.stderr "fork"], some (MainResult.exited 1)))

/-- Claim C6 counterexample: for a caller that is not its own
process-group leader, processing -d is not a no-op: it performs a
setsid call. -/
theorem claim6_counterexample :
    stepOpt envNoLead "mnexec" (GOut.opt 'd' none) = ([Event.setsidCall], none) ∧
    ([Event.setsidCall] : List Event) ≠ [] := by
  exact ⟨rfl, by simp⟩

/-- Claim C6 (amended): the full behaviour of the -d case in each of the
four scenarios (non-leader; leader with child, parent, or failed fork). -/
theorem claim6_detach_behavior (env : Env) (argv0 : String) (t : List GOut) :
    claim6Prop env argv0 t := by
  refine ⟨?_, ?_, ?_, ?_⟩
  · intro h
    constructor
    · simp [runOpts, stepOpt, h]
    · simp [stepOpt, h]
  · intro h hf
    simp [runOpts, stepOpt, h, hf]
  · intro h hf
    simp [runOpts, stepOpt, h, hf]
  · intro h hf
    simp [runOpts, stepOpt, h, hf]

/-- Claim C6 witness: the amended statement instantiated at a non-leader
environment and at leader environments with each fork outcome. -/
theorem claim6_witness :
    claim6Prop envNoLead "mnexec" [] ∧ claim6Prop env0 "mnexec" [] ∧
    claim6Prop { env0 with fork := ForkRes.parent } "mnexec" [] ∧
    claim6Prop { env0 with fork := ForkRes.fail } "mnexec" [] :=
  ⟨claim6_detach_behavior envNoLead "mnexec" [],
   claim6_detach_behavior env0 "mnexec" [],
   claim6_detach_behavior { env0 with fork := ForkRes.parent } "mnexec" [],
   claim6_detach_behavior { env0 with fork := ForkRes.fail } "mnexec" []⟩

end Mnexec

namespace Mnexec

/-- Claim C8 property: on the capability-poor option string, the
character is not a recognized option, getopt reports it with a question
mark, and the whole invocation prints usage and exits 1. -/
def claim8Prop (env : Env) (argv0 : String) (c : Char) (rest : List String) : Prop :=
  optRecognized bsdOS c = false ∧
  (getoptAll bsdOS (("-" ++ c.toString) :: rest)).1 =
    GOut.unknown c :: (getoptGo bsdOS rest.length rest).1 ∧
  runMain bsdOS env argv0 (("-" ++ c.toString) :: rest) =
    ([Event.usage argv0], MainResult.exited 1)

/-- Claim C8: on the capability-poor variant (option string "+cdpvh"),
each of -n, -a, -g, -r is an unrecognized flag: getopt yields a question
mark, the default case prints usage, and the program exits with status 1,
regardless of what follows on the command line. -/
theorem claim8_poor_variant_rejects (env : Env) (argv0 : String) (c : Char)
    (rest : List String) (hc : c ∈ ['n', 'a', 'g', 'r']) :
    claim8Prop env argv0 c rest := by
  have hc4 : c = 'n' ∨ c = 'a' ∨ c = 'g' ∨ c = 'r' := by simpa using hc
  have hrec : optRecognized bsdOS c = false := by
    rcases hc4 with rfl | rfl | rfl | rfl <;> decide
  have hdash : c ≠ '-' := by
    rcases hc4 with rfl | rfl | rfl | rfl <;> decide
  have hdata : ("-" ++ c.toString).data = ['-', c] := rfl
  have hne : ("-" ++ c.toString) ≠ "--" := by
    intro he
    have h2 : ("-" ++ c.toString).data = "--".data := by rw [he]
    rw [hdata] at h2
    simp at h2
    exact hdash h2
  have hbeq : (("-" ++ c.toString) == "--") = false := beq_eq_false_iff_ne.mpr hne
  have htok : isOptTok ("-" ++ c.toString) = true := by
    unfold isOptTok
    rw [hdata]
    simp [hne]
  have hclu : clusterStep bsdOS [c] rest = ([GOut.unknown c], rest) := by
    simp [clusterStep, hrec]
  have hga : getoptGo bsdOS (rest.length + 1) (("-" ++ c.toString) :: rest) =
      (GOut.unknown c :: (getoptGo bsdOS rest.length rest).1,
       (getoptGo bsdOS rest.length rest).2) := by
    rw [getoptGo]
    rw [if_neg (by simp [hbeq])]
    rw [if_pos (by simp [htok])]
    have htail : ("-" ++ c.toString).data.tail = [c] := by
      simp [hdata]
    rw [htail, hclu]
    simp
  have hitems : (getoptAll bsdOS (("-" ++ c.toString) :: rest)).1 =
      GOut.unknown c :: (getoptGo bsdOS rest.length rest).1 := by
    simp [getoptAll, hga]
  refine ⟨hrec, hitems, ?_⟩
  have hres : runOpts env argv0 ((getoptAll bsdOS (("-" ++ c.toString) :: rest)).1) =
      ([Event.usage argv0], some (MainResult.exited 1)) := by
    rw [hitems]
    simp [runOpts, stepOpt]
  simp [runMain, hres]

/-- Claim C8 witness: the statement at the invocation `-n true` on the
capability-poor variant. -/
theorem claim8_witness : claim8Prop env0 "mnexec" 'n' ["true"] :=
  claim8_poor_variant_rejects env0 "mnexec" 'n' ["true"] (by decide)

/-- Claim C9: path validation accepts the empty group path (the
character scan is vacuous): no invalid-path diagnostic occurs, and
join-cgroup proceeds to attempt the three membership opens with an empty
sub-path in each constructed file name. -/
theorem claim9_empty_path_accepted (env : Env) :
    validOk "" = true ∧
    openPaths (cgroupRun env "").1 =
      ["/sys/fs/cgroup/cpu//tasks", "/sys/fs/cgroup/cpuacct//tasks",
       "/sys/fs/cgroup/cpuset//tasks"] ∧
    Event.stderr ("invalid path: " ++ "" ++ "\n") ∉ (cgroupRun env "").1 := by
  refine ⟨by decide, ?_, ?_⟩ <;>
    cases h1 : env.cgroupOpen "cpu" "" <;> cases h2 : env.cgroupOpen "cpuacct" "" <;>
      cases h3 : env.cgroupOpen "cpuset" "" <;>
        simp [cgroupRun, cgroupLoop, groups, validOk, openPaths, cgPath, h1, h2, h3]

/-- Claim C10 property: the argument converts to 0, the -a and -r cases
behave exactly as with the literal argument "0" (no rejection of the
malformed number at the interpreter level), and -a proceeds to open
/proc/0/ns/net. -/
def claim10Prop (env : Env) (argv0 : String) (s : String) : Prop :=
  atoi s = 0 ∧
  stepOpt env argv0 (GOut.opt 'a' (some s)) = stepOpt env argv0 (GOut.opt 'a' (some "0")) ∧
  stepOpt env argv0 (GOut.opt 'r' (some s)) = stepOpt env argv0 (GOut.opt 'r' (some "0")) ∧
  (stepOpt env argv0 (GOut.opt 'a' (some s))).1.head? =
    some (Event.openFile "/proc/0/ns/net")

/-- Claim C10: -a and -r convert their argument with atoi, so an
argument with no leading number silently becomes 0: -a then targets
/proc/0 and behaves exactly as -a 0, and -r behaves exactly as -r 0;
no malformed numeric argument is rejected. -/
theorem claim10_atoi_silent_zero (env : Env) (argv0 : String) (s : String)
    (h : numericLead s = false) : claim10Prop env argv0 s := by
  have hz : atoi s = 0 := by
    unfold numericLead at h
    unfold atoi
    rcases hd : s.data.dropWhile isSpaceC with _ | ⟨c, t⟩
    · simp [atoiCore]
    · rw [hd] at h
      by_cases hc : c = '-' ∨ c = '+'
      · rcases t with _ | ⟨c2, t2⟩
        · rcases hc with rfl | rfl <;> simp [atoiCore, digitsVal, afterSign]
        · rw [show afterSign (c :: c2 :: t2) = c2 :: t2 from by simp [afterSign, hc]] at h
          simp only at h
          rcases hc with rfl | rfl <;> simp [atoiCore, digitsVal, h]
      · push_neg at hc
        rw [show afterSign (c :: t) = c :: t from by simp [afterSign, hc.1, hc.2]] at h
        simp only at h
        simp [atoiCore, hc.1, hc.2, digitsVal, h]
  have h00 : atoi "0" = 0 := by decide
  have hstr : ("/proc/" ++ toString (0 : Int) ++ "/ns/net") = "/proc/0/ns/net" := by rfl
  refine ⟨hz, ?_, ?_, ?_⟩
  · simp [stepOpt, attach, hz, h00]
  · simp [stepOpt, schedRun, hz, h00]
  · by_cases h1 : env.openNetNs 0 <;> by_cases h2 : env.setnsNet_ok <;>
      by_cases h3 : env.openMntNs 0 <;> by_cases h4 : env.setnsMnt_ok <;>
        by_cases h5 : env.chroot_ok <;> by_cases h6 : env.chdir_ok <;>
          simp [stepOpt, attach, finishCwd, hz, hstr, h1, h2, h3, h4, h5, h6]

/-- Claim C10 witness: the statement at the non-numeric argument "foo". -/
theorem claim10_witness : claim10Prop env0 "mnexec" "foo" :=
  claim10_atoi_silent_zero env0 "mnexec" "foo" (by decide)

end Mnexec
